import Mathlib

/-!
Verification of the wifui wireless-network TUI (Rust, Windows WLAN API).

Shallow embedding: the pure string/list/state-machine logic of the source is
translated into Lean definitions; OS calls (handle opening, WlanSetProfile,
WlanConnect, ...) are modelled by their observable inputs/outputs (status
codes, the XML documents exchanged, operation traces).  Strings are modelled
by Lean `String` (a packed `List Char`); the Rust byte indices returned by
`str::find` are modelled as character indices, which agree with the byte
model on the region boundaries used by the code.

Source files embedded: src/wifi/profile.rs, src/wifi/connection.rs,
src/wifi/listener.rs, src/error.rs, src/event/mod.rs, src/event/handlers.rs,
src/app.rs, src/config.rs.
-/

namespace Wifui

/-! ## Error taxonomy (src/error.rs) -/

inductive WifiError where
  | handleOpenFailed (code : Nat)
  | interfaceEnumFailed (code : Nat)
  | noInterface
  | networkListFailed (code : Nat)
  | notificationRegistrationFailed (code : Nat)
  | scanFailed (code : Nat)
  | connectionFailed (code : Nat)
  | profileAddFailed (code reason : Nat)
  | profileGetFailed (code : Nat)
  | profileSetFailed (code reason : Nat)
  | profileDeleteFailed (code : Nat)
  | disconnectFailed (code : Nat)
  | profileXmlInvalid
  | internal (msg : String)
deriving DecidableEq, Repr

/-- Model of Rust `format!("{code}")`: decimal rendering of a `u32`. -/
def format_decimal (n : Nat) : String := Nat.repr n

/-- Model of Rust `format!("{code:X}")`: uppercase hexadecimal rendering. -/
def format_hex_upper (n : Nat) : String := String.mk ((Nat.toDigits 16 n).map Char.toUpper)

/-- The fallback arm of `wlan_reason_to_string`:
`format!("Unknown Error (Code: {code}, 0x{code:X})")`. -/
def unknown_reason_string (code : Nat) : String :=
  "Unknown Error (Code: " ++ format_decimal code ++ ", 0x" ++ format_hex_upper code ++ ")"

/-- The reason codes matched by the static lookup arms of
`wlan_reason_to_string` (src/error.rs lines 56-84), in source order. -/
def reason_table : List Nat :=
  [0, 1, 0x00010001, 0x00010002, 0x00028002, 0x00028003, 0x00028004, 0x00028005,
   0x00028006, 0x00028007, 0x00028008, 0x00028009, 0x0002800A, 0x0002800B,
   0x0002800C, 0x0002800D, 0x0002800E, 0x00038001, 0x00038002, 0x00038003,
   0x00038004, 0x00038005, 0x00038006, 0x00038014, 0x00050004, 0x00048005,
   0x00048014, 0x00080006]

/-- `wlan_reason_to_string` (src/error.rs): static lookup of a WLAN reason
code with a formatted fallback.  The Rust `match` over integer literals is
translated into the equivalent first-match chain of equality tests. -/
def wlan_reason_to_string (code : Nat) : String :=
  if code = 0 then "Success"
  else if code = 1 then "Unknown Failure"
  else if code = 0x00010001 then "Network Not Compatible"
  else if code = 0x00010002 then "Profile Not Compatible"
  else if code = 0x00028002 then "Association Failed"
  else if code = 0x00028003 then "Association Timeout"
  else if code = 0x00028004 then "Pre-Security Failure"
  else if code = 0x00028005 then "Start Security Failure"
  else if code = 0x00028006 then "Security Failure"
  else if code = 0x00028007 then "Security Timeout"
  else if code = 0x00028008 then "Roaming Failure"
  else if code = 0x00028009 then "Roaming Security Failure"
  else if code = 0x0002800A then "Ad-hoc Security Failure"
  else if code = 0x0002800B then "Driver Disconnected (Possible Wrong Password)"
  else if code = 0x0002800C then "Driver Operation Failure"
  else if code = 0x0002800D then "IHV Not Available"
  else if code = 0x0002800E then "IHV Not Responding"
  else if code = 0x00038001 then "ACM Base"
  else if code = 0x00038002 then "Connection Failed (Network Not Available or Wrong Password)"
  else if code = 0x00038003 then "Profile Not Found"
  else if code = 0x00038004 then "Profile Already Exists"
  else if code = 0x00038005 then "Profile Name Too Long"
  else if code = 0x00038006 then "Profile Invalid"
  else if code = 0x00038014 then "Connection Failed (Profile Issue)"
  else if code = 0x00050004 then "Incorrect Password"
  else if code = 0x00048005 then "Incorrect Password (Key Exchange Timeout)"
  else if code = 0x00048014 then "Authentication Timeout (Possible Wrong Password)"
  else if code = 0x00080006 then "MSM Security Missing"
  else unknown_reason_string code

/-! ## Profile codec (src/wifi/profile.rs) -/

/-- quick_xml text escaping (`BytesText::new` escapes via `escape()`), one
character at a time: the five markup-reserved characters become entities. -/
def xml_escape_char (c : Char) : String :=
  if c = '&' then "&amp;"
  else if c = '<' then "&lt;"
  else if c = '>' then "&gt;"
  else if c = '\'' then "&apos;"
  else if c = '"' then "&quot;"
  else String.singleton c

/-- quick_xml `escape` applied to a whole string. -/
def xml_escape (s : String) : String :=
  String.mk (s.data.flatMap (fun c => (xml_escape_char c).data))

/-- `write_element` (src/wifi/profile.rs lines 88-92): start tag, escaped
text, end tag. -/
def write_element (name value : String) : String :=
  "<" ++ name ++ ">" ++ xml_escape value ++ "</" ++ name ++ ">"

/-- The XML declaration written by `BytesDecl::new("1.0", None, None)`. -/
def xml_decl : String := "<?xml version=\"1.0\"?>"

/-- The `WLANProfile` start tag with its namespace attribute. -/
def wlan_profile_open_tag : String :=
  "<WLANProfile xmlns=\"http://www.microsoft.com/networking/WLAN/profile/v1\">"

/-- The `match auth` table of `create_profile_xml` (src/wifi/profile.rs
lines 52-64) mapping the abstract security descriptor to wire tokens. -/
def auth_encryption_tokens (auth cipher : String) : String × String :=
  if auth = "WPA3-SAE" then ("WPA3SAE", "AES")
  else if auth = "WPA3ENT" then ("WPA3ENT", "AES")
  else if auth = "WPA3ENT192" then ("WPA3ENT192", "AES")
  else if auth = "WPA3" then ("WPA3ENT192", "AES")
  else if auth = "WPA2-PSK" then ("WPA2PSK", "AES")
  else if auth = "WPA2" then ("WPA2", "AES")
  else if auth = "WPA-PSK" then ("WPAPSK", if cipher = "AES" then "AES" else "TKIP")
  else if auth = "WPA" then ("WPA", if cipher = "AES" then "AES" else "TKIP")
  else if auth = "Shared" ∨ auth = "WEP" then ("shared", "WEP")
  else if auth = "Open" ∨ auth = "open" then ("open", "none")
  else ("WPA2PSK", "AES")

/-- `create_profile_xml` (src/wifi/profile.rs lines 16-86).  The sequence of
writer events is the concatenation of the written pieces; `SecretString` is
modelled as the exposed `String`. -/
def create_profile_xml (ssid auth cipher : String) (password : Option String)
    (hidden : Bool) : String :=
  let tokens := auth_encryption_tokens auth cipher
  let final_cipher := if cipher = "GCMP" then "GCMP" else tokens.2
  xml_decl ++ wlan_profile_open_tag
    ++ write_element "name" ssid
    ++ "<SSIDConfig>" ++ "<SSID>" ++ write_element "name" ssid ++ "</SSID>"
    ++ (if hidden then write_element "nonBroadcast" "true" else "")
    ++ "</SSIDConfig>"
    ++ write_element "connectionType" "ESS"
    ++ write_element "connectionMode" "manual"
    ++ "<MSM>" ++ "<security>" ++ "<authEncryption>"
    ++ write_element "authentication" tokens.1
    ++ write_element "encryption" final_cipher
    ++ write_element "useOneX" "false"
    ++ "</authEncryption>"
    ++ (match password with
        | some pwd =>
            "<sharedKey>" ++ write_element "keyType" "passPhrase"
              ++ write_element "protected" "false"
              ++ write_element "keyMaterial" pwd ++ "</sharedKey>"
        | none => "")
    ++ "</security>" ++ "</MSM>" ++ "</WLANProfile>"

/-- Rust `str::contains(pat)`, used by `is_profile_auto_connect` and
`set_auto_connect`: substring containment. -/
def str_contains (s pat : String) : Bool := decide (pat.data <:+: s.data)

/-- The auto-connect test applied to a profile document by
`is_profile_auto_connect` (src/wifi/profile.rs line 122). -/
def profile_xml_is_auto (xml : String) : Bool :=
  str_contains xml "<connectionMode>auto</connectionMode>"

/-- Rust `str::find(pat)` (src/wifi/profile.rs lines 285-286), modelled at
character granularity: index of the first occurrence of `pat`. -/
def find_substring_idx (pat : List Char) : List Char → Option Nat
  | [] => if pat.isPrefixOf [] then some 0 else none
  | c :: rest =>
      if pat.isPrefixOf (c :: rest) then some 0
      else (find_substring_idx pat rest).map (· + 1)

/-- The XML-parsing part of `get_wifi_password` (src/wifi/profile.rs lines
285-294): slice the text strictly between the first `<keyMaterial>` and the
first `</keyMaterial>`; empty or missing means no stored key.  (`start + 13`
mirrors the source: 13 is the length of `<keyMaterial>`.) -/
def get_wifi_password_xml (xml : String) : Option String :=
  match find_substring_idx "<keyMaterial>".data xml.data,
        find_substring_idx "</keyMaterial>".data xml.data with
  | some start, some stop =>
      let password := (xml.data.drop (start + 13)).take (stop - (start + 13))
      if password.isEmpty then none else some (String.mk password)
  | some _, none => none
  | none, _ => none

/-- `forget_network` (src/wifi/profile.rs lines 238-254), as a function of
the `WlanDeleteProfile` status code: `ERROR_NOT_FOUND` (1168) is accepted
alongside `ERROR_SUCCESS` (0). -/
def forget_network_status (result : Nat) : Except WifiError Unit :=
  if result ≠ 0 ∧ result ≠ 1168 then
    Except.error (WifiError.profileDeleteFailed result)
  else Except.ok ()

/-! ## Network records, merge and sort (src/wifi/types.rs, src/wifi/connection.rs) -/

/-- `WifiInfo` (src/wifi/types.rs).  `signal` is a `u8` in 0-100, modelled
as `Nat`; the code only compares signals, so no overflow arises. -/
structure WifiInfo where
  ssid : String
  network_type : String
  authentication : String
  encryption : String
  signal : Nat
  is_saved : Bool
  is_connected : Bool
  auto_connect : Bool
  phy_type : String
  channel : Nat
  frequency : Nat
  link_speed : Option Nat
deriving DecidableEq, Repr

/-- The uniqueness key used by the `wifi_map` in `get_wifi_networks`
(src/wifi/connection.rs line 367): `(ssid, authentication)`. -/
def wifi_key (w : WifiInfo) : String × String := (w.ssid, w.authentication)

/-- The `and_modify` closure of `get_wifi_networks` (src/wifi/connection.rs
lines 368-378): OR the saved/connected flags in, keep the larger signal. -/
def merge_wifi_info (info new_info : WifiInfo) : WifiInfo :=
  let info := if new_info.is_saved then { info with is_saved := true } else info
  let info := if new_info.is_connected then { info with is_connected := true } else info
  if new_info.signal > info.signal then { info with signal := new_info.signal } else info

/-- `HashMap::entry(key).and_modify(f).or_insert(v)` on an association-list
model of the map: modify in place if the key is present, append otherwise. -/
def map_upsert (m : List ((String × String) × WifiInfo)) (key : String × String)
    (f : WifiInfo → WifiInfo) (v : WifiInfo) : List ((String × String) × WifiInfo) :=
  match m with
  | [] => [(key, v)]
  | (k, w) :: rest =>
      if k = key then (k, f w) :: rest else (k, w) :: map_upsert rest key f v

/-- The deduplication loop of `get_wifi_networks` (src/wifi/connection.rs
lines 237-380) restricted to the map it builds: every scanned observation is
upserted under its `(ssid, authentication)` key. -/
def build_wifi_map (observations : List WifiInfo) : List ((String × String) × WifiInfo) :=
  observations.foldl
    (fun m n => map_upsert m (wifi_key n) (fun info => merge_wifi_info info n) n) []

/-- Association-list lookup, the model of `HashMap` indexing. -/
def map_find (m : List ((String × String) × WifiInfo)) (key : String × String) :
    Option WifiInfo :=
  match m with
  | [] => none
  | (k, w) :: rest => if k = key then some w else map_find rest key

/-- The comparator passed to `wifi_list.sort_by` (src/wifi/connection.rs
lines 391-399): connected first, then saved, then signal descending.
Rust `bool` ordering (`false < true`) matches Lean's `Ord Bool`. -/
def wifi_cmp (a b : WifiInfo) : Ordering :=
  if a.is_connected ≠ b.is_connected then compare b.is_connected a.is_connected
  else if a.is_saved ≠ b.is_saved then compare b.is_saved a.is_saved
  else compare b.signal a.signal

/-- `sort_by` with `wifi_cmp`, modelled by a stable merge sort whose `le`
relation is "the comparator does not say greater". -/
def sort_wifi_list (l : List WifiInfo) : List WifiInfo :=
  l.mergeSort (fun a b => wifi_cmp a b ≠ Ordering.gt)

/-! ## Connection events (src/wifi/types.rs, src/wifi/listener.rs) -/

inductive ConnectionEvent where
  | connected (ssid : String)
  | disconnected (ssid : String)
  | failed (ssid : String) (reason_code : Nat) (reason_str : String)
deriving DecidableEq, Repr

/-- The `Failed` event as built by `notification_callback`
(src/wifi/listener.rs lines 77-85): the reason string is produced by
`wlan_reason_to_string` from the numeric reason code. -/
def mk_failed_event (ssid : String) (reason_code : Nat) : ConnectionEvent :=
  ConnectionEvent.failed ssid reason_code (wlan_reason_to_string reason_code)

/-! ## Configuration constants (src/config.rs) -/

def CONNECTION_TIMEOUT_SECS : Nat := 60
def PROFILE_REGISTRATION_DELAY_MS : Nat := 1500
def OPEN_PROFILE_REGISTRATION_DELAY_MS : Nat := 1000
def CONNECTION_REFRESH_BURST : Nat := 15
def DISCONNECT_REFRESH_BURST : Nat := 5

/-! ## Orchestrator state machine (src/app.rs, src/event/mod.rs)

The fields of `AppState` that the per-tick connection logic reads or
writes.  Channels are modelled by their observable face: a result channel is
`none` (dropped / never created) or `some msg` where `msg : Option _` is the
at-most-one pending message of the single-slot channel.  Purely visual state
(`ListState` selection, key logger) is outside the model.  Instants are
milliseconds on a global clock. -/

deriving instance DecidableEq for Except

structure AppStateM where
  wifi_list : List WifiInfo
  filtered_wifi_list : List WifiInfo
  connected_ssid : Option String
  search_value : String
  is_connecting : Bool
  target_ssid : Option String
  connection_start_time : Option Nat
  connection_result_rx : Option (Option (Except String Unit))
  error_message : Option String
  refresh_burst : Nat
  is_refreshing_networks : Bool
  network_update_rx : Bool
  scheduled_forgets : List String
  loading_frame : Nat
deriving DecidableEq, Repr

/-- The greedy character-consumption loop inside `update_filtered_list`
(src/app.rs lines 232-243): walk the ssid characters, consuming the next
pending search character on each match; return the unconsumed search
characters (the loop breaks once none remain). -/
def consume_search : List Char → List Char → List Char
  | _, [] => []
  | [], sc :: scs => sc :: scs
  | c :: cs, sc :: scs =>
      if c = sc then consume_search cs scs else consume_search cs (sc :: scs)

/-- Character-wise model of Rust `str::to_lowercase`. -/
def str_to_lowercase (s : String) : String := String.mk (s.data.map Char.toLower)

/-- The filter predicate of `update_filtered_list` (src/app.rs lines
230-244): the search characters must all be consumed. -/
def matches_search (search_lower : String) (w : WifiInfo) : Bool :=
  (consume_search (str_to_lowercase w.ssid).data search_lower.data).isEmpty

/-- `update_filtered_list` (src/app.rs lines 221-255) restricted to the list
it computes (the trailing `l_state` selection reset is view-only). -/
def update_filtered_list (st : AppStateM) : AppStateM :=
  if st.search_value.isEmpty then { st with filtered_wifi_list := st.wifi_list }
  else
    let search_lower := str_to_lowercase st.search_value
    { st with filtered_wifi_list := st.wifi_list.filter (matches_search search_lower) }

/-- The "Check for connection result" block (src/event/mod.rs lines 32-60):
if the single-slot channel holds a result, take it, drop the channel, surface
an error or start a refresh burst, and trigger a background refresh. -/
def drain_connection_result (st : AppStateM) : AppStateM :=
  match st.connection_result_rx with
  | some (some result) =>
      let st := { st with connection_result_rx := none }
      let st :=
        match result with
        | Except.error e =>
            { st with is_connecting := false, target_ssid := none,
                      connection_start_time := none,
                      error_message := some ("Failed to connect: " ++ e) }
        | Except.ok _ => { st with refresh_burst := CONNECTION_REFRESH_BURST }
      { st with is_refreshing_networks := true, network_update_rx := true }
  | _ => st

/-- The "Check for network updates" block (src/event/mod.rs lines 62-99)
restricted to the modelled fields (selection preservation is view-only).
`upd` is the message, if any, pending on the network-update channel. -/
def drain_network_update (st : AppStateM)
    (upd : Option (Except String (List WifiInfo × Option String))) : AppStateM :=
  if st.network_update_rx then
    match upd with
    | some result =>
        let st :=
          match result with
          | Except.ok (new_list, connected) =>
              update_filtered_list
                { st with wifi_list := new_list, connected_ssid := connected }
          | Except.error _ => st
        { st with is_refreshing_networks := false, network_update_rx := false }
    | none => st
  else st

/-- One step of the "Check for connection events" drain loop
(src/event/mod.rs lines 101-142).  The `tokio::spawn`ed
`forget_network(ssid)` of the `Failed` arm is recorded in
`scheduled_forgets`. -/
def handle_connection_event (st : AppStateM) (ev : ConnectionEvent) : AppStateM :=
  match ev with
  | ConnectionEvent.connected ssid =>
      match st.target_ssid with
      | some target =>
          if target = ssid then
            { st with is_connecting := false, target_ssid := none,
                      connection_start_time := none,
                      refresh_burst := DISCONNECT_REFRESH_BURST }
          else st
      | none => st
  | ConnectionEvent.disconnected _ =>
      { st with refresh_burst := DISCONNECT_REFRESH_BURST }
  | ConnectionEvent.failed ssid _ reason_str =>
      match st.target_ssid with
      | some target =>
          if target = ssid then
            { st with is_connecting := false, target_ssid := none,
                      connection_start_time := none,
                      error_message := some ("Connection failed: " ++ reason_str),
                      scheduled_forgets := st.scheduled_forgets ++ [ssid] }
          else st
      | none => st

/-- The full event drain: the queue is emptied in delivery order. -/
def drain_connection_events (st : AppStateM) (events : List ConnectionEvent) : AppStateM :=
  events.foldl handle_connection_event st

/-- The "Check if connected to target SSID" block (src/event/mod.rs lines
144-173): fallback completion via the re-queried connection, then the
wall-clock timeout, then the orphaned-flag cleanup. -/
def check_connection_progress (st : AppStateM) (now : Nat) : AppStateM :=
  if st.is_connecting then
    let st := { st with loading_frame := st.loading_frame + 1 }
    match st.target_ssid with
    | some target =>
        let st :=
          match st.connected_ssid with
          | some connected =>
              if connected = target then
                { st with is_connecting := false, target_ssid := none,
                          connection_start_time := none }
              else st
          | none => st
        match st.connection_start_time with
        | some start_time =>
            if now - start_time > CONNECTION_TIMEOUT_SECS * 1000 then
              { st with is_connecting := false, target_ssid := none,
                        connection_start_time := none,
                        error_message :=
                          some "Connection timed out (No response from OS)" }
            else st
        | none => st
    | none =>
        if st.connection_result_rx = none then { st with is_connecting := false }
        else st
  else st

/-- One tick of the channel-drain and state-machine part of `run`
(src/event/mod.rs lines 32-173), in source order: connection result, network
update, pushed connection events, then the progress/timeout check.  `now` is
the tick's wall clock in milliseconds. -/
def tick (st : AppStateM) (upd : Option (Except String (List WifiInfo × Option String)))
    (events : List ConnectionEvent) (now : Nat) : AppStateM :=
  check_connection_progress
    (drain_connection_events (drain_network_update (drain_connection_result st) upd) events)
    now

/-! ## Connection controller traces (src/wifi/connection.rs, src/event/handlers.rs)

The blocking native calls issued by a connect task, in program order, as an
operation trace. -/

inductive WifiOp where
  | query_connected
  | disconnect_wait
  | build_profile (xml : String)
  | add_profile (xml : String)
  | sleep_ms (n : Nat)
  | connect_by_name (ssid : String)
deriving DecidableEq, Repr

/-- `connect_with_password` (src/wifi/connection.rs lines 69-86): build the
credential document, install it, wait the settle delay, connect by profile
name. -/
def connect_with_password_ops (ssid password auth cipher : String) (hidden : Bool) :
    List WifiOp :=
  let profile_xml := create_profile_xml ssid auth cipher (some password) hidden
  [WifiOp.build_profile profile_xml, WifiOp.add_profile profile_xml,
   WifiOp.sleep_ms PROFILE_REGISTRATION_DELAY_MS, WifiOp.connect_by_name ssid]

/-- Modelled from the spec: `disconnect_and_wait` is called from
src/event/handlers.rs but its definition is not in the provided sources;
per the spec's ConnectionController policy it "explicitly disconnect[s]
first and let[s] it complete", modelled as one completed disconnect op. -/
def disconnect_and_wait_ops : List WifiOp := [WifiOp.disconnect_wait]

/-- The async task spawned by `handle_password_popup` on Enter
(src/event/handlers.rs lines 261-283): re-query the current connection,
disconnect (and wait) if one exists, then run `connect_with_password` with
the credentials resolved from the selected network (or the WPA2-PSK/AES
fallback). -/
def password_popup_connect_ops (currently_connected : Bool)
    (ssid password auth cipher : String) : List WifiOp :=
  [WifiOp.query_connected]
    ++ (if currently_connected then disconnect_and_wait_ops else [])
    ++ connect_with_password_ops ssid password auth cipher false

/-! ## Auxiliary notions for the proofs -/

/-- The five markup-reserved characters escaped by the codec. -/
def xml_specials : List Char := ['&', '<', '>', '\'', '"']

/-- The `final_cipher` let-binding of `create_profile_xml` as a standalone
function (src/wifi/profile.rs line 65). -/
def final_cipher_token (auth cipher : String) : String :=
  if cipher = "GCMP" then "GCMP" else (auth_encryption_tokens auth cipher).2

/-- The characters contributed by the optional `nonBroadcast` element. -/
def hidden_block_data (hidden : Bool) : List Char :=
  if hidden then "<nonBroadcast>true</nonBroadcast>".data else []

/-- The characters contributed by the optional `sharedKey` element. -/
def shared_key_block_data (password : Option String) : List Char :=
  match password with
  | some pwd => "<sharedKey>".data ++ ("<keyType>passPhrase</keyType>".data
      ++ ("<protected>false</protected>".data ++ ("<keyMaterial>".data
      ++ ((xml_escape pwd).data ++ ("</keyMaterial>".data ++ "</sharedKey>".data)))))
  | none => []

/-- The document built for the WPA2-PSK/AES/visible case, up to (and
excluding) the `<keyMaterial>` tag. -/
def c2_seg_pre (ssid : String) : String :=
  xml_decl ++ wlan_profile_open_tag ++ ("<name>" ++ xml_escape ssid ++ "</name>")
    ++ "<SSIDConfig>" ++ "<SSID>" ++ ("<name>" ++ xml_escape ssid ++ "</name>") ++ "</SSID>"
    ++ "</SSIDConfig>" ++ "<connectionType>ESS</connectionType>"
    ++ "<connectionMode>manual</connectionMode>" ++ "<MSM>" ++ "<security>"
    ++ "<authEncryption>" ++ "<authentication>WPA2PSK</authentication>"
    ++ "<encryption>AES</encryption>" ++ "<useOneX>false</useOneX>" ++ "</authEncryption>"
    ++ "<sharedKey>" ++ "<keyType>passPhrase</keyType>" ++ "<protected>false</protected>"

/-- The document tail after the `</keyMaterial>` tag in the same case. -/
def c2_seg_post : String := "</sharedKey>" ++ "</security>" ++ "</MSM>" ++ "</WLANProfile>"

/-- `pat` can start nowhere inside `x`, not even as a match running off the
end of `x` into adjacent text: every position of `x` exhibits a mismatch
with `pat` inside `x` itself.  This is the invariant that lets first-
occurrence computations jump over `x`. -/
def mismatch_blocked (pat x : List Char) : Prop :=
  ∀ i, i < x.length → ∃ j, j < pat.length ∧ i + j < x.length ∧ x[i + j]? ≠ pat[j]?

instance (pat x : List Char) : Decidable (mismatch_blocked pat x) := by
  unfold mismatch_blocked; infer_instance

/-- The sort order stated by the spec for `listNetworks`: connected
descending, then saved descending, then signal descending.  `spec_sort_ge a b`
says `a` may appear no later than `b`.  (Spec-side definition, compared
against the source comparator `wifi_cmp`.) -/
def spec_sort_ge (a b : WifiInfo) : Prop :=
  (b.is_connected < a.is_connected) ∨
    (a.is_connected = b.is_connected ∧
      ((b.is_saved < a.is_saved) ∨
        (a.is_saved = b.is_saved ∧ b.signal ≤ a.signal)))

/-- A concrete `AppStateM` in state `Connecting{target:"Home"}` with a live
(but silent) result channel, used to evaluate the state machine. -/
def sample_connecting_state : AppStateM :=
  { wifi_list := [], filtered_wifi_list := [], connected_ssid := none,
    search_value := "", is_connecting := true, target_ssid := some "Home",
    connection_start_time := some 0, connection_result_rx := some none,
    error_message := none, refresh_burst := 0, is_refreshing_networks := false,
    network_update_rx := false, scheduled_forgets := [], loading_frame := 0 }

/-- A concrete sample scanned observation. -/
def sample_obs (signal : Nat) (saved connected : Bool) : WifiInfo :=
  { ssid := "Cafe", network_type := "Infrastructure", authentication := "WPA2-PSK",
    encryption := "AES", signal := signal, is_saved := saved,
    is_connected := connected, auto_connect := false, phy_type := "802.11ax (Wi-Fi 6)",
    channel := 6, frequency := 2437000, link_speed := none }

/-! ## Helper lemmas: blocked occurrences and first-occurrence search -/

theorem mismatch_blocked_nil (pat : List Char) : mismatch_blocked pat [] := by
  intro i hi
  simp at hi

theorem mismatch_blocked_tail {pat : List Char} {c : Char} {x : List Char}
    (h : mismatch_blocked pat (c :: x)) : mismatch_blocked pat x := by
  intro i hi
  obtain ⟨j, hj, hij, hne⟩ := h (i + 1) (by simp; omega)
  refine ⟨j, hj, by simp at hij; omega, ?_⟩
  have harith : i + 1 + j = (i + j) + 1 := by omega
  rw [harith] at hne
  simpa using hne

theorem mismatch_blocked_append {pat x y : List Char}
    (hx : mismatch_blocked pat x) (hy : mismatch_blocked pat y) :
    mismatch_blocked pat (x ++ y) := by
  intro i hi
  rw [List.length_append] at hi
  by_cases hix : i < x.length
  · obtain ⟨j, hj, hij, hne⟩ := hx i hix
    refine ⟨j, hj, by rw [List.length_append]; omega, ?_⟩
    rw [List.getElem?_append_left hij]
    exact hne
  · obtain ⟨j, hj, hij, hne⟩ := hy (i - x.length) (by omega)
    refine ⟨j, hj, by rw [List.length_append]; omega, ?_⟩
    rw [List.getElem?_append_right (by omega)]
    have harith : i + j - x.length = i - x.length + j := by omega
    rw [harith]
    exact hne

theorem mismatch_blocked_of_no_head {pat x : List Char} {h0 : Char}
    (hpat : pat[0]? = some h0) (hx : ∀ c ∈ x, c ≠ h0) :
    mismatch_blocked pat x := by
  intro i hi
  have hplen : 0 < pat.length := by
    cases pat with
    | nil => simp at hpat
    | cons a l => simp
  refine ⟨0, hplen, by omega, ?_⟩
  rw [Nat.add_zero, hpat, List.getElem?_eq_getElem hi]
  intro hc
  exact hx _ (List.getElem_mem hi) (by simpa using hc)

theorem getElem?_eq_of_starts {pat l : List Char} (h : pat <+: l) {j : Nat}
    (hj : j < pat.length) : l[j]? = pat[j]? := by
  obtain ⟨t, rfl⟩ := h
  exact List.getElem?_append_left hj

theorem not_starts_of_blocked {pat x z : List Char}
    (hx : mismatch_blocked pat x) (hne : x ≠ []) : ¬ pat <+: (x ++ z) := by
  intro hp
  obtain ⟨j, hj, hjx, hne2⟩ := hx 0 (by cases x with | nil => exact absurd rfl hne | cons c l => simp)
  apply hne2
  rw [Nat.zero_add] at hjx ⊢
  rw [← @List.getElem?_append_left _ x z j hjx]
  exact getElem?_eq_of_starts hp hj

theorem find_substring_idx_of_starts {pat hay : List Char}
    (h : pat.isPrefixOf hay = true) : find_substring_idx pat hay = some 0 := by
  cases hay with
  | nil => simp [find_substring_idx, h]
  | cons c rest => simp [find_substring_idx, h]

theorem find_substring_idx_append {pat y : List Char} :
    ∀ {x : List Char}, mismatch_blocked pat x →
      find_substring_idx pat (x ++ (pat ++ y)) = some x.length := by
  intro x
  induction x with
  | nil =>
      intro _
      rw [List.nil_append]
      rw [find_substring_idx_of_starts (List.isPrefixOf_iff_prefix.mpr (List.prefix_append pat y))]
      simp
  | cons c x' ih =>
      intro hx
      have hnp : ¬ pat <+: ((c :: x') ++ (pat ++ y)) :=
        not_starts_of_blocked hx (by simp)
      have hnp' : pat.isPrefixOf ((c :: x') ++ (pat ++ y)) ≠ true := by
        intro hb
        exact hnp (List.isPrefixOf_iff_prefix.mp hb)
      rw [List.cons_append]
      rw [find_substring_idx]
      rw [if_neg (by simpa using hnp')]
      rw [ih (mismatch_blocked_tail hx)]
      simp

theorem no_occurrence_of_blocked {pat l : List Char} (h : mismatch_blocked pat l)
    (hpat : pat ≠ []) : ¬ pat <:+: l := by
  rintro ⟨s, t, rfl⟩
  have hplen : 0 < pat.length := by
    cases pat with
    | nil => exact absurd rfl hpat
    | cons a l' => simp
  obtain ⟨j, hj, hjl, hne⟩ := h s.length (by simp [List.length_append]; omega)
  apply hne
  rw [List.append_assoc]
  rw [List.getElem?_append_right (by omega)]
  have harith : s.length + j - s.length = j := by omega
  rw [harith]
  exact List.getElem?_append_left hj

/-! ## Helper lemmas: the escaping function -/

theorem xml_escape_char_no_lt (c : Char) : '<' ∉ (xml_escape_char c).data := by
  unfold xml_escape_char
  split_ifs with h1 h2 h3 h4 h5
  · decide
  · decide
  · decide
  · decide
  · decide
  · intro hmem
    have hdata : (String.singleton c).data = [c] := rfl
    rw [hdata, List.mem_singleton] at hmem
    exact h2 hmem.symm

theorem xml_escape_no_lt (s : String) : '<' ∉ (xml_escape s).data := by
  unfold xml_escape
  intro h
  rw [List.mem_flatMap] at h
  obtain ⟨c, _, hc⟩ := h
  exact xml_escape_char_no_lt c hc

theorem xml_escape_char_eq_self {c : Char} (h : c ∉ xml_specials) :
    xml_escape_char c = String.singleton c := by
  unfold xml_escape_char
  rw [if_neg (fun hc => h (by rw [hc]; decide)), if_neg (fun hc => h (by rw [hc]; decide)),
      if_neg (fun hc => h (by rw [hc]; decide)), if_neg (fun hc => h (by rw [hc]; decide)),
      if_neg (fun hc => h (by rw [hc]; decide))]

theorem xml_escape_list_eq_self : ∀ l : List Char, (∀ c ∈ l, c ∉ xml_specials) →
    (l.flatMap fun c => (xml_escape_char c).data) = l := by
  intro l
  induction l with
  | nil => intro _; simp
  | cons a l ih =>
      intro h
      rw [List.flatMap_cons, xml_escape_char_eq_self (h a (by simp))]
      rw [ih (fun c hc => h c (by simp [hc]))]
      rfl

theorem xml_escape_eq_self {s : String} (h : ∀ c ∈ s.data, c ∉ xml_specials) :
    xml_escape s = s :=
  String.ext (xml_escape_list_eq_self s.data h)

theorem xml_escape_char_ne_nil (c : Char) : (xml_escape_char c).data ≠ [] := by
  unfold xml_escape_char
  split_ifs <;> simp [String.singleton]

theorem xml_escape_ne_nil {s : String} (h : s ≠ "") : (xml_escape s).data ≠ [] := by
  unfold xml_escape
  show s.data.flatMap (fun c => (xml_escape_char c).data) ≠ []
  cases hd : s.data with
  | nil => exact absurd (String.ext hd) h
  | cons a l =>
      rw [List.flatMap_cons]
      intro hnil
      rcases List.append_eq_nil.mp hnil with ⟨h1, _⟩
      exact xml_escape_char_ne_nil a h1

/-! ## Helper lemmas: document decomposition -/

theorem blocked_esc {pat : List Char} (hp : pat[0]? = some '<') (s : String) :
    mismatch_blocked pat (xml_escape s).data :=
  mismatch_blocked_of_no_head hp (fun _ hc he => xml_escape_no_lt s (he ▸ hc))

theorem occ_append_right {x y : List Char} (z : List Char) (h : x <:+: y) : x <:+: y ++ z := by
  obtain ⟨s, t, hst⟩ := h
  exact ⟨s, t ++ z, by rw [← hst]; simp [List.append_assoc]⟩

theorem occ_append_left {x y : List Char} (z : List Char) (h : x <:+: y) : x <:+: z ++ y := by
  obtain ⟨s, t, hst⟩ := h
  exact ⟨z ++ s, t, by rw [← hst]; simp [List.append_assoc]⟩

theorem write_element_eq (name value : String) :
    write_element name value
      = ("<" ++ name ++ ">") ++ xml_escape value ++ ("</" ++ name ++ ">") := by
  apply String.ext
  simp [write_element, String.data_append, List.append_assoc]

theorem we_name (v : String) : write_element "name" v = "<name>" ++ xml_escape v ++ "</name>" := by
  rw [write_element_eq]
  rw [show ("<" ++ "name" ++ ">" : String) = "<name>" from by decide]
  rw [show ("</" ++ "name" ++ ">" : String) = "</name>" from by decide]

theorem we_key_material (v : String) :
    write_element "keyMaterial" v = "<keyMaterial>" ++ xml_escape v ++ "</keyMaterial>" := by
  rw [write_element_eq]
  rw [show ("<" ++ "keyMaterial" ++ ">" : String) = "<keyMaterial>" from by decide]
  rw [show ("</" ++ "keyMaterial" ++ ">" : String) = "</keyMaterial>" from by decide]

theorem we_authentication (v : String) :
    write_element "authentication" v
      = "<authentication>" ++ xml_escape v ++ "</authentication>" := by
  rw [write_element_eq]
  rw [show ("<" ++ "authentication" ++ ">" : String) = "<authentication>" from by decide]
  rw [show ("</" ++ "authentication" ++ ">" : String) = "</authentication>" from by decide]

theorem we_encryption (v : String) :
    write_element "encryption" v = "<encryption>" ++ xml_escape v ++ "</encryption>" := by
  rw [write_element_eq]
  rw [show ("<" ++ "encryption" ++ ">" : String) = "<encryption>" from by decide]
  rw [show ("</" ++ "encryption" ++ ">" : String) = "</encryption>" from by decide]

theorem we_conn_type :
    write_element "connectionType" "ESS" = "<connectionType>ESS</connectionType>" := by decide

theorem we_conn_mode :
    write_element "connectionMode" "manual" = "<connectionMode>manual</connectionMode>" := by
  decide

theorem we_use_one_x : write_element "useOneX" "false" = "<useOneX>false</useOneX>" := by decide

theorem we_key_type :
    write_element "keyType" "passPhrase" = "<keyType>passPhrase</keyType>" := by decide

theorem we_protected_f :
    write_element "protected" "false" = "<protected>false</protected>" := by decide

theorem we_auth_wpa2 :
    write_element "authentication" "WPA2PSK" = "<authentication>WPA2PSK</authentication>" := by
  decide

theorem we_enc_aes : write_element "encryption" "AES" = "<encryption>AES</encryption>" := by decide

theorem we_non_broadcast :
    write_element "nonBroadcast" "true" = "<nonBroadcast>true</nonBroadcast>" := by decide

set_option maxRecDepth 8000 in
theorem create_data_decomp (ssid auth cipher : String) (password : Option String) (hidden : Bool) :
    (create_profile_xml ssid auth cipher password hidden).data =
      xml_decl.data ++ (wlan_profile_open_tag.data ++ ("<name>".data ++ ((xml_escape ssid).data
        ++ ("</name>".data ++ ("<SSIDConfig>".data ++ ("<SSID>".data ++ ("<name>".data
        ++ ((xml_escape ssid).data ++ ("</name>".data ++ ("</SSID>".data
        ++ (hidden_block_data hidden ++ ("</SSIDConfig>".data
        ++ ("<connectionType>ESS</connectionType>".data
        ++ ("<connectionMode>manual</connectionMode>".data ++ ("<MSM>".data
        ++ ("<security>".data ++ ("<authEncryption>".data ++ ("<authentication>".data
        ++ ((xml_escape (auth_encryption_tokens auth cipher).1).data
        ++ ("</authentication>".data ++ ("<encryption>".data
        ++ ((xml_escape (final_cipher_token auth cipher)).data ++ ("</encryption>".data
        ++ ("<useOneX>false</useOneX>".data ++ ("</authEncryption>".data
        ++ (shared_key_block_data password ++ ("</security>".data ++ ("</MSM>".data
        ++ ("</WLANProfile>".data))))))))))))))))))))))))))))) := by
  cases password <;> cases hidden <;>
    simp [create_profile_xml, final_cipher_token, hidden_block_data, shared_key_block_data,
      we_name, we_conn_type, we_conn_mode, we_use_one_x, we_key_type,
      we_protected_f, we_key_material, we_authentication, we_encryption, we_non_broadcast,
      String.data_append, List.append_assoc]

set_option maxRecDepth 8000 in
theorem create_wpa2_psk (ssid pwd : String) :
    create_profile_xml ssid "WPA2-PSK" "AES" (some pwd) false =
      c2_seg_pre ssid ++ "<keyMaterial>" ++ xml_escape pwd ++ "</keyMaterial>" ++ c2_seg_post := by
  simp only [create_profile_xml]
  rw [show auth_encryption_tokens "WPA2-PSK" "AES" = ("WPA2PSK", "AES") from by decide]
  rw [if_neg (show ¬(("AES" : String) = "GCMP") from by decide)]
  simp only [we_name, we_conn_type, we_conn_mode, we_use_one_x, we_key_type, we_protected_f,
    we_key_material, we_auth_wpa2, we_enc_aes]
  apply String.ext
  simp [c2_seg_pre, c2_seg_post, String.data_append, List.append_assoc]

theorem c2_hdata (ssid pwd : String) :
    (create_profile_xml ssid "WPA2-PSK" "AES" (some pwd) false).data
      = (c2_seg_pre ssid).data ++ ("<keyMaterial>".data ++
          ((xml_escape pwd).data ++ ("</keyMaterial>".data ++ c2_seg_post.data))) := by
  rw [create_wpa2_psk]
  simp [String.data_append, List.append_assoc]

set_option maxRecDepth 8000 in
theorem c2_seg_pre_chunks (ssid : String) :
    (c2_seg_pre ssid).data =
      xml_decl.data ++ (wlan_profile_open_tag.data ++ ("<name>".data ++ ((xml_escape ssid).data
        ++ ("</name>".data ++ ("<SSIDConfig>".data ++ ("<SSID>".data ++ ("<name>".data
        ++ ((xml_escape ssid).data ++ ("</name>".data ++ ("</SSID>".data ++ ("</SSIDConfig>".data
        ++ ("<connectionType>ESS</connectionType>".data
        ++ ("<connectionMode>manual</connectionMode>".data ++ ("<MSM>".data ++ ("<security>".data
        ++ ("<authEncryption>".data ++ ("<authentication>WPA2PSK</authentication>".data
        ++ ("<encryption>AES</encryption>".data ++ ("<useOneX>false</useOneX>".data
        ++ ("</authEncryption>".data ++ ("<sharedKey>".data
        ++ ("<keyType>passPhrase</keyType>".data
        ++ "<protected>false</protected>".data)))))))))))))))))))))) := by
  simp [c2_seg_pre, String.data_append, List.append_assoc]

set_option maxRecDepth 8000 in
theorem c2_blocked_open (ssid : String) :
    mismatch_blocked "<keyMaterial>".data (c2_seg_pre ssid).data := by
  rw [c2_seg_pre_chunks]
  have hlt : ("<keyMaterial>".data)[0]? = some '<' := by decide
  exact mismatch_blocked_append (by decide) (mismatch_blocked_append (by decide)
    (mismatch_blocked_append (by decide) (mismatch_blocked_append (blocked_esc hlt ssid)
    (mismatch_blocked_append (by decide) (mismatch_blocked_append (by decide)
    (mismatch_blocked_append (by decide) (mismatch_blocked_append (by decide)
    (mismatch_blocked_append (blocked_esc hlt ssid) (mismatch_blocked_append (by decide)
    (mismatch_blocked_append (by decide) (mismatch_blocked_append (by decide)
    (mismatch_blocked_append (by decide) (mismatch_blocked_append (by decide)
    (mismatch_blocked_append (by decide) (mismatch_blocked_append (by decide)
    (mismatch_blocked_append (by decide) (mismatch_blocked_append (by decide)
    (mismatch_blocked_append (by decide) (mismatch_blocked_append (by decide)
    (mismatch_blocked_append (by decide) (mismatch_blocked_append (by decide)
    (by decide))))))))))))))))))))))

set_option maxRecDepth 8000 in
theorem c2_blocked_close (ssid pwd : String) :
    mismatch_blocked "</keyMaterial>".data
      ((c2_seg_pre ssid).data ++ ("<keyMaterial>".data ++ (xml_escape pwd).data)) := by
  have hlt : ("</keyMaterial>".data)[0]? = some '<' := by decide
  refine mismatch_blocked_append ?_ (mismatch_blocked_append (by decide) (blocked_esc hlt pwd))
  rw [c2_seg_pre_chunks]
  exact mismatch_blocked_append (by decide) (mismatch_blocked_append (by decide)
    (mismatch_blocked_append (by decide) (mismatch_blocked_append (blocked_esc hlt ssid)
    (mismatch_blocked_append (by decide) (mismatch_blocked_append (by decide)
    (mismatch_blocked_append (by decide) (mismatch_blocked_append (by decide)
    (mismatch_blocked_append (blocked_esc hlt ssid) (mismatch_blocked_append (by decide)
    (mismatch_blocked_append (by decide) (mismatch_blocked_append (by decide)
    (mismatch_blocked_append (by decide) (mismatch_blocked_append (by decide)
    (mismatch_blocked_append (by decide) (mismatch_blocked_append (by decide)
    (mismatch_blocked_append (by decide) (mismatch_blocked_append (by decide)
    (mismatch_blocked_append (by decide) (mismatch_blocked_append (by decide)
    (mismatch_blocked_append (by decide) (mismatch_blocked_append (by decide)
    (by decide))))))))))))))))))))))

theorem c2_find_open (ssid pwd : String) :
    find_substring_idx "<keyMaterial>".data
        (create_profile_xml ssid "WPA2-PSK" "AES" (some pwd) false).data
      = some (c2_seg_pre ssid).data.length := by
  rw [c2_hdata]
  exact find_substring_idx_append (c2_blocked_open ssid)

theorem c2_find_close (ssid pwd : String) :
    find_substring_idx "</keyMaterial>".data
        (create_profile_xml ssid "WPA2-PSK" "AES" (some pwd) false).data
      = some ((c2_seg_pre ssid).data.length + (13 + (xml_escape pwd).data.length)) := by
  have hdata2 : (create_profile_xml ssid "WPA2-PSK" "AES" (some pwd) false).data
      = ((c2_seg_pre ssid).data ++ ("<keyMaterial>".data ++ (xml_escape pwd).data))
          ++ ("</keyMaterial>".data ++ c2_seg_post.data) := by
    rw [c2_hdata]
    simp [List.append_assoc]
  rw [hdata2, find_substring_idx_append (c2_blocked_close ssid pwd)]
  simp [List.length_append]
  omega

theorem c2_general (ssid pwd : String) :
    get_wifi_password_xml (create_profile_xml ssid "WPA2-PSK" "AES" (some pwd) false)
      = if (xml_escape pwd).data.isEmpty then none else some (xml_escape pwd) := by
  unfold get_wifi_password_xml
  rw [c2_find_open, c2_find_close]
  have hdrop : ((create_profile_xml ssid "WPA2-PSK" "AES" (some pwd) false).data.drop
      ((c2_seg_pre ssid).data.length + 13))
      = (xml_escape pwd).data ++ ("</keyMaterial>".data ++ c2_seg_post.data) := by
    have hdata3 : (create_profile_xml ssid "WPA2-PSK" "AES" (some pwd) false).data
        = ((c2_seg_pre ssid).data ++ "<keyMaterial>".data)
            ++ ((xml_escape pwd).data ++ ("</keyMaterial>".data ++ c2_seg_post.data)) := by
      rw [c2_hdata]
      simp [List.append_assoc]
    rw [hdata3]
    rw [show (c2_seg_pre ssid).data.length + 13
        = ((c2_seg_pre ssid).data ++ "<keyMaterial>".data).length from by
      simp [List.length_append]]
    exact List.drop_left _ _
  have harith : (c2_seg_pre ssid).data.length + (13 + (xml_escape pwd).data.length)
      - ((c2_seg_pre ssid).data.length + 13) = (xml_escape pwd).data.length := by omega
  simp only [hdrop, harith]
  rw [List.take_left]

/-! ## Claim C1: connectionMode of the built credential document -/

set_option maxRecDepth 40000 in
/-- C1 counterexample: the claim says the `connectionMode` element is `auto`
when a password is supplied; but the document built by `create_profile_xml`
for ssid "Home" with password "pw" does not contain an `auto` connection
mode (the source's own auto-connect check returns false on it), and does
contain the `manual` one. -/
theorem c1_counterexample :
    profile_xml_is_auto (create_profile_xml "Home" "WPA2-PSK" "AES" (some "pw") false) = false ∧
    str_contains (create_profile_xml "Home" "WPA2-PSK" "AES" (some "pw") false)
        "<connectionMode>manual</connectionMode>" = true := by
  constructor
  · decide
  · decide

set_option maxRecDepth 8000 in
/-- C1 (amended): for every invocation of `create_profile_xml` -- whether or
not a password is supplied -- the produced credential document contains the
element `<connectionMode>manual</connectionMode>` and never contains
`<connectionMode>auto</connectionMode>`: the connection mode is always
`manual`. -/
theorem c1_connection_mode_always_manual (ssid auth cipher : String)
    (password : Option String) (hidden : Bool) :
    str_contains (create_profile_xml ssid auth cipher password hidden)
      "<connectionMode>manual</connectionMode>" = true ∧
    profile_xml_is_auto (create_profile_xml ssid auth cipher password hidden) = false := by
  have hlt : ("<connectionMode>auto</connectionMode>".data)[0]? = some '<' := by decide
  constructor
  · rw [str_contains, decide_eq_true_iff]
    rw [create_data_decomp]
    exact occ_append_left _ (occ_append_left _ (occ_append_left _ (occ_append_left _
      (occ_append_left _ (occ_append_left _ (occ_append_left _ (occ_append_left _
      (occ_append_left _ (occ_append_left _ (occ_append_left _ (occ_append_left _
      (occ_append_left _ (occ_append_left _ (occ_append_right _ List.infix_rfl))))))))))))))
  · rw [profile_xml_is_auto, str_contains, decide_eq_false_iff_not]
    have bhide : mismatch_blocked "<connectionMode>auto</connectionMode>".data
        (hidden_block_data hidden) := by
      cases hidden <;> decide
    have bshared : mismatch_blocked "<connectionMode>auto</connectionMode>".data
        (shared_key_block_data password) := by
      cases password with
      | none => exact mismatch_blocked_nil _
      | some pwd =>
          simp only [shared_key_block_data]
          exact mismatch_blocked_append (by decide) (mismatch_blocked_append (by decide)
            (mismatch_blocked_append (by decide) (mismatch_blocked_append (by decide)
            (mismatch_blocked_append (blocked_esc hlt pwd)
            (mismatch_blocked_append (by decide) (by decide))))))
    refine no_occurrence_of_blocked ?_ (by decide)
    rw [create_data_decomp]
    exact mismatch_blocked_append (by decide) (mismatch_blocked_append (by decide)
      (mismatch_blocked_append (by decide) (mismatch_blocked_append (blocked_esc hlt ssid)
      (mismatch_blocked_append (by decide) (mismatch_blocked_append (by decide)
      (mismatch_blocked_append (by decide) (mismatch_blocked_append (by decide)
      (mismatch_blocked_append (blocked_esc hlt ssid) (mismatch_blocked_append (by decide)
      (mismatch_blocked_append (by decide) (mismatch_blocked_append bhide
      (mismatch_blocked_append (by decide) (mismatch_blocked_append (by decide)
      (mismatch_blocked_append (by decide) (mismatch_blocked_append (by decide)
      (mismatch_blocked_append (by decide) (mismatch_blocked_append (by decide)
      (mismatch_blocked_append (by decide) (mismatch_blocked_append (blocked_esc hlt
      (auth_encryption_tokens auth cipher).1) (mismatch_blocked_append (by decide)
      (mismatch_blocked_append (by decide) (mismatch_blocked_append (blocked_esc hlt
      (final_cipher_token auth cipher)) (mismatch_blocked_append (by decide)
      (mismatch_blocked_append (by decide) (mismatch_blocked_append (by decide)
      (mismatch_blocked_append bshared (mismatch_blocked_append (by decide)
      (mismatch_blocked_append (by decide) (by decide)))))))))))))))))))))))))))))

/-! ## Claim C2: round-trip of the stored key through the document -/

set_option maxRecDepth 40000 in
/-- C2 counterexample: for the password "a&b" (which contains `&`), the
stored key extracted from the built WPA2-PSK/AES document is the escaped
text "a&amp;b", not the original password -- the claimed round-trip identity
fails on passwords containing markup-reserved characters. -/
theorem c2_counterexample :
    get_wifi_password_xml (create_profile_xml "S" "WPA2-PSK" "AES" (some "a&b") false)
      ≠ some "a&b" ∧
    get_wifi_password_xml (create_profile_xml "S" "WPA2-PSK" "AES" (some "a&b") false)
      = some "a&amp;b" := by
  constructor
  · decide
  · decide

/-- C2 (amended): extracting the stored key from the document built with
security WPA2-PSK, cipher AES, a password and hidden=false returns the
XML-escaped form of the password (or nothing when the password is empty);
in particular the round-trip is the identity exactly on non-empty passwords
containing none of the five markup-reserved characters `& < > ' "`. -/
theorem c2_roundtrip_escaped (ssid pwd : String) :
    get_wifi_password_xml (create_profile_xml ssid "WPA2-PSK" "AES" (some pwd) false)
      = (if (xml_escape pwd).data.isEmpty then none else some (xml_escape pwd)) ∧
    (pwd ≠ "" → (∀ c ∈ pwd.data, c ∉ xml_specials) →
      get_wifi_password_xml (create_profile_xml ssid "WPA2-PSK" "AES" (some pwd) false)
        = some pwd) := by
  refine ⟨c2_general ssid pwd, fun hne hclean => ?_⟩
  rw [c2_general, xml_escape_eq_self hclean]
  rw [if_neg ?_]
  intro hempty
  rw [List.isEmpty_iff] at hempty
  exact hne (String.ext hempty)

/-- C2 witness: the round-trip is the identity on a concrete clean
password. -/
theorem c2_roundtrip_witness :
    get_wifi_password_xml (create_profile_xml "Cafe" "WPA2-PSK" "AES" (some "hunter2") false)
      = some "hunter2" :=
  (c2_roundtrip_escaped "Cafe" "hunter2").2 (by decide) (by decide)

/-! ## Claim C3: Failed event handling -/

set_option maxRecDepth 4000 in
/-- C3 counterexample: with the state machine connecting to "Home", draining
a `Failed("Home", 0x00050004)` event surfaces the error text
"Connection failed: Incorrect Password" -- not exactly "Incorrect Password"
as the claim states. -/
theorem c3_counterexample :
    (drain_connection_events sample_connecting_state
        [mk_failed_event "Home" 0x00050004]).error_message ≠ some "Incorrect Password" ∧
    (drain_connection_events sample_connecting_state
        [mk_failed_event "Home" 0x00050004]).error_message
      = some "Connection failed: Incorrect Password" := by
  constructor
  · decide
  · decide

/-- C3 (amended): if the state machine is connecting with target ssid S and
a Failed event for S with reason code 0x00050004 is drained, the state
returns to Idle, the surfaced error text is exactly
"Connection failed: Incorrect Password" (the decoded reason preceded by the
fixed "Connection failed: " prefix), and a forget(S) is scheduled
asynchronously. -/
theorem c3_failed_event_drained (st : AppStateM) (s : String)
    (_hconn : st.is_connecting = true) (htgt : st.target_ssid = some s) :
    (drain_connection_events st [mk_failed_event s 0x00050004]).is_connecting = false ∧
    (drain_connection_events st [mk_failed_event s 0x00050004]).target_ssid = none ∧
    (drain_connection_events st [mk_failed_event s 0x00050004]).connection_start_time = none ∧
    (drain_connection_events st [mk_failed_event s 0x00050004]).error_message
      = some "Connection failed: Incorrect Password" ∧
    s ∈ (drain_connection_events st [mk_failed_event s 0x00050004]).scheduled_forgets := by
  have hreason : wlan_reason_to_string 0x00050004 = "Incorrect Password" := by decide
  have hmsg : ("Connection failed: " ++ "Incorrect Password" : String)
      = "Connection failed: Incorrect Password" := by decide
  simp [drain_connection_events, handle_connection_event, mk_failed_event, htgt, hreason, hmsg]

/-- C3 witness: the amended transition evaluated in the sample
Connecting("Home") state. -/
theorem c3_witness :
    (drain_connection_events sample_connecting_state
        [mk_failed_event "Home" 0x00050004]).is_connecting = false ∧
    (drain_connection_events sample_connecting_state
        [mk_failed_event "Home" 0x00050004]).target_ssid = none ∧
    (drain_connection_events sample_connecting_state
        [mk_failed_event "Home" 0x00050004]).connection_start_time = none ∧
    (drain_connection_events sample_connecting_state
        [mk_failed_event "Home" 0x00050004]).error_message
      = some "Connection failed: Incorrect Password" ∧
    "Home" ∈ (drain_connection_events sample_connecting_state
        [mk_failed_event "Home" 0x00050004]).scheduled_forgets :=
  c3_failed_event_drained sample_connecting_state "Home" rfl rfl

/-! ## Claim C4: connection timeout tick -/

set_option maxRecDepth 4000 in
/-- C4 counterexample: in the sample Connecting("Home") state (started at 0,
with a live but silent result channel), the tick at 60001 ms goes Idle with
the timed-out error, but the pending result channel is NOT cleared -- the
claim's "no pending result channel remains" is false. -/
theorem c4_counterexample :
    (tick sample_connecting_state none [] 60001).is_connecting = false ∧
    (tick sample_connecting_state none [] 60001).target_ssid = none ∧
    (tick sample_connecting_state none [] 60001).error_message
      = some "Connection timed out (No response from OS)" ∧
    (tick sample_connecting_state none [] 60001).connection_result_rx ≠ none := by
  refine ⟨?_, ?_, ?_, ?_⟩ <;> decide

/-- C4 (amended): if the state machine is Connecting with start time t0, no
event is drained, no network re-query result arrives and no command result
is pending, then on a tick whose clock exceeds t0 plus the 60 s connection
timeout the state becomes Idle and the "Connection timed out (No response
from OS)" error is surfaced; the pending result channel, if any, is left in
place unchanged (it is not dropped by the timeout transition). -/
theorem c4_timeout_tick (st : AppStateM) (s : String) (t0 now : Nat)
    (hconn : st.is_connecting = true) (htgt : st.target_ssid = some s)
    (hstart : st.connection_start_time = some t0)
    (hnotconn : st.connected_ssid ≠ some s)
    (hres : ∀ r, st.connection_result_rx ≠ some (some r))
    (htime : now - t0 > CONNECTION_TIMEOUT_SECS * 1000) :
    (tick st none [] now).is_connecting = false ∧
    (tick st none [] now).target_ssid = none ∧
    (tick st none [] now).connection_start_time = none ∧
    (tick st none [] now).error_message = some "Connection timed out (No response from OS)" ∧
    (tick st none [] now).connection_result_rx = st.connection_result_rx := by
  have hdrain : drain_connection_result st = st := by
    cases hrx : st.connection_result_rx with
    | none => simp [drain_connection_result, hrx]
    | some o =>
        cases o with
        | none => simp [drain_connection_result, hrx]
        | some r => exact absurd hrx (hres r)
  have hupd : drain_network_update st none = st := by
    cases hbr : st.network_update_rx <;> simp [drain_network_update, hbr]
  have hev : drain_connection_events st [] = st := rfl
  unfold tick
  rw [hdrain, hupd, hev]
  unfold check_connection_progress
  rw [hconn]
  simp only [if_true]
  cases hc : st.connected_ssid with
  | none => simp [htgt, hstart, hc, htime]
  | some c =>
      have hcs : ¬ c = s := fun h => hnotconn (by rw [hc, h])
      simp [htgt, hstart, hc, hcs, htime]

/-- C4 witness: the amended timeout transition evaluated in the sample
state. -/
theorem c4_witness :
    (tick sample_connecting_state none [] 60001).is_connecting = false ∧
    (tick sample_connecting_state none [] 60001).target_ssid = none ∧
    (tick sample_connecting_state none [] 60001).connection_start_time = none ∧
    (tick sample_connecting_state none [] 60001).error_message
      = some "Connection timed out (No response from OS)" ∧
    (tick sample_connecting_state none [] 60001).connection_result_rx
      = sample_connecting_state.connection_result_rx :=
  c4_timeout_tick sample_connecting_state "Home" 0 60001 rfl rfl rfl (by decide)
    (fun r h => Option.noConfusion (Option.some.inj h)) (by decide)

/-! ## Claim C5: merge of observations sharing the uniqueness key -/

/-- C5: for any two scanned observations sharing the (ssid, authentication)
key, the record merged by the scan map has signal max(a,b) and saved /
connected flags the logical OR of the two observations' flags. -/
theorem c5_merge_by_key (a b : WifiInfo) (h : wifi_key a = wifi_key b) :
    map_find (build_wifi_map [a, b]) (wifi_key a) = some (merge_wifi_info a b) ∧
    (merge_wifi_info a b).signal = max a.signal b.signal ∧
    (merge_wifi_info a b).is_saved = (a.is_saved || b.is_saved) ∧
    (merge_wifi_info a b).is_connected = (a.is_connected || b.is_connected) := by
  refine ⟨?_, ?_, ?_, ?_⟩
  · simp [build_wifi_map, map_upsert, map_find, h]
  · simp only [merge_wifi_info]
    split_ifs <;> simp_all <;> omega
  · simp only [merge_wifi_info]
    split_ifs <;> simp_all
  · simp only [merge_wifi_info]
    split_ifs <;> simp_all

/-- C5 witness: merging the spec's two "Cafe" observations (signals 40 and
70, one saved) yields signal 70 and isSaved true. -/
theorem c5_witness :
    map_find (build_wifi_map [sample_obs 40 true false, sample_obs 70 false false])
        (wifi_key (sample_obs 40 true false))
      = some (merge_wifi_info (sample_obs 40 true false) (sample_obs 70 false false)) ∧
    (merge_wifi_info (sample_obs 40 true false) (sample_obs 70 false false)).signal
      = max (sample_obs 40 true false).signal (sample_obs 70 false false).signal ∧
    (merge_wifi_info (sample_obs 40 true false) (sample_obs 70 false false)).is_saved
      = ((sample_obs 40 true false).is_saved || (sample_obs 70 false false).is_saved) ∧
    (merge_wifi_info (sample_obs 40 true false) (sample_obs 70 false false)).is_connected
      = ((sample_obs 40 true false).is_connected || (sample_obs 70 false false).is_connected) :=
  c5_merge_by_key (sample_obs 40 true false) (sample_obs 70 false false) rfl

/-! ## Claim C6: disconnect completes before the new credential profile -/

/-- C6: in the task spawned by the password popup while currently connected,
the single disconnect-and-wait operation sits at index 1 of the trace,
strictly before building the credential document (index 2), installing it
(index 3) and the connect call (index 5); `disconnect_and_wait` is awaited,
so it completes before the subsequent operations start. -/
theorem c6_disconnect_before_connect (ssid pwd auth cipher : String) :
    (password_popup_connect_ops true ssid pwd auth cipher).count WifiOp.disconnect_wait = 1 ∧
    (password_popup_connect_ops true ssid pwd auth cipher)[1]?
      = some WifiOp.disconnect_wait ∧
    (password_popup_connect_ops true ssid pwd auth cipher)[2]?
      = some (WifiOp.build_profile (create_profile_xml ssid auth cipher (some pwd) false)) ∧
    (password_popup_connect_ops true ssid pwd auth cipher)[3]?
      = some (WifiOp.add_profile (create_profile_xml ssid auth cipher (some pwd) false)) ∧
    (password_popup_connect_ops true ssid pwd auth cipher)[5]?
      = some (WifiOp.connect_by_name ssid) := by
  refine ⟨?_, rfl, rfl, rfl, rfl⟩
  rfl

/-! ## Claim C7: the network list sort order -/

theorem wifi_cmp_not_gt_iff (a b : WifiInfo) :
    (wifi_cmp a b ≠ Ordering.gt) ↔ spec_sort_ge a b := by
  unfold wifi_cmp spec_sort_ge
  cases ha : a.is_connected <;> cases hb : b.is_connected <;>
    cases hs : a.is_saved <;> cases ht : b.is_saved <;>
      simp [ha, hb, hs, ht, Bool.lt_iff,
        show compare false true = Ordering.lt from rfl,
        show compare true false = Ordering.gt from rfl,
        Nat.compare_eq_gt, Nat.not_lt]

theorem spec_sort_ge_trans (a b c : WifiInfo) (h1 : spec_sort_ge a b) (h2 : spec_sort_ge b c) :
    spec_sort_ge a c := by
  unfold spec_sort_ge at h1 h2 ⊢
  cases hac : a.is_connected <;> cases hbc : b.is_connected <;> cases hcc : c.is_connected <;>
    cases has : a.is_saved <;> cases hbs : b.is_saved <;> cases hcs : c.is_saved <;>
      simp_all [Bool.lt_iff] <;> omega

theorem spec_sort_ge_total (a b : WifiInfo) : spec_sort_ge a b ∨ spec_sort_ge b a := by
  unfold spec_sort_ge
  cases hac : a.is_connected <;> cases hbc : b.is_connected <;>
    cases has : a.is_saved <;> cases hbs : b.is_saved <;>
      simp_all [Bool.lt_iff] <;> omega

/-- C7: the sorted network list is ordered by (isConnected desc, isSaved
desc, signal desc): every adjacent pair is related by the lexicographic
greater-or-equal relation `spec_sort_ge`. -/
theorem c7_sorted_networks (l : List WifiInfo) :
    List.Chain' spec_sort_ge (sort_wifi_list l) := by
  have hiff : ∀ a b : WifiInfo,
      ((fun a b : WifiInfo => decide (wifi_cmp a b ≠ Ordering.gt)) a b = true)
        ↔ spec_sort_ge a b := by
    intro a b
    rw [decide_eq_true_iff]
    exact wifi_cmp_not_gt_iff a b
  have htrans : ∀ a b c : WifiInfo,
      (fun a b : WifiInfo => decide (wifi_cmp a b ≠ Ordering.gt)) a b = true →
      (fun a b : WifiInfo => decide (wifi_cmp a b ≠ Ordering.gt)) b c = true →
      (fun a b : WifiInfo => decide (wifi_cmp a b ≠ Ordering.gt)) a c = true :=
    fun a b c h1 h2 =>
      (hiff a c).mpr (spec_sort_ge_trans a b c ((hiff a b).mp h1) ((hiff b c).mp h2))
  have htotal : ∀ a b : WifiInfo,
      ((fun a b : WifiInfo => decide (wifi_cmp a b ≠ Ordering.gt)) a b
        || (fun a b : WifiInfo => decide (wifi_cmp a b ≠ Ordering.gt)) b a) = true := by
    intro a b
    rcases spec_sort_ge_total a b with h | h
    · rw [Bool.or_eq_true]
      exact Or.inl ((hiff a b).mpr h)
    · rw [Bool.or_eq_true]
      exact Or.inr ((hiff b a).mpr h)
  have hp := List.sorted_mergeSort htrans htotal l
  exact (hp.imp (fun hab => (hiff _ _).mp hab)).chain'

/-! ## Claim C8: forget is idempotent on the OS status -/

/-- C8: `forget_network` succeeds exactly on the success status 0 and the
"not found" status 1168, and returns `ProfileDeleteFailed` carrying the
status for every other status. -/
theorem c8_forget_status (r : Nat) :
    (r = 0 ∨ r = 1168 → forget_network_status r = Except.ok ()) ∧
    (r ≠ 0 → r ≠ 1168 →
      forget_network_status r = Except.error (WifiError.profileDeleteFailed r)) := by
  constructor
  · intro h
    unfold forget_network_status
    rcases h with h | h <;> subst h <;> simp
  · intro h1 h2
    unfold forget_network_status
    rw [if_pos ⟨h1, h2⟩]

/-- C8 witness: deletion status 0 and 1168 both succeed; status 5 fails with
`ProfileDeleteFailed 5`. -/
theorem c8_witness :
    forget_network_status 0 = Except.ok () ∧ forget_network_status 1168 = Except.ok () ∧
    forget_network_status 5 = Except.error (WifiError.profileDeleteFailed 5) :=
  ⟨(c8_forget_status 0).1 (Or.inl rfl), (c8_forget_status 1168).1 (Or.inr rfl),
   (c8_forget_status 5).2 (by decide) (by decide)⟩

/-! ## Claim C9: the unknown-reason fallback renders the code twice -/

/-- C9: for every reason code absent from the static lookup table, the
decoded reason string contains both the decimal and the uppercase
hexadecimal rendering of the code. -/
theorem c9_unknown_reason_renders (code : Nat) (h : code ∉ reason_table) :
    str_contains (wlan_reason_to_string code) (format_decimal code) = true ∧
    str_contains (wlan_reason_to_string code) (format_hex_upper code) = true := by
  have hne : ∀ k ∈ reason_table, code ≠ k := fun k hk he => h (he ▸ hk)
  have hfall : wlan_reason_to_string code = unknown_reason_string code := by
    unfold wlan_reason_to_string
    rw [if_neg (hne 0 (by decide)), if_neg (hne 1 (by decide)), if_neg (hne 0x00010001 (by
      decide)), if_neg (hne 0x00010002 (by decide)), if_neg (hne 0x00028002 (by decide)),
      if_neg (hne 0x00028003 (by decide)), if_neg (hne 0x00028004 (by decide)), if_neg (hne
      0x00028005 (by decide)), if_neg (hne 0x00028006 (by decide)), if_neg (hne 0x00028007 (by
      decide)), if_neg (hne 0x00028008 (by decide)), if_neg (hne 0x00028009 (by decide)),
      if_neg (hne 0x0002800A (by decide)), if_neg (hne 0x0002800B (by decide)), if_neg (hne
      0x0002800C (by decide)), if_neg (hne 0x0002800D (by decide)), if_neg (hne 0x0002800E (by
      decide)), if_neg (hne 0x00038001 (by decide)), if_neg (hne 0x00038002 (by decide)),
      if_neg (hne 0x00038003 (by decide)), if_neg (hne 0x00038004 (by decide)), if_neg (hne
      0x00038005 (by decide)), if_neg (hne 0x00038006 (by decide)), if_neg (hne 0x00038014 (by
      decide)), if_neg (hne 0x00050004 (by decide)), if_neg (hne 0x00048005 (by decide)),
      if_neg (hne 0x00048014 (by decide)), if_neg (hne 0x00080006 (by decide))]
  rw [hfall]
  constructor
  · rw [str_contains, decide_eq_true_iff]
    unfold unknown_reason_string
    simp only [String.data_append]
    exact occ_append_right _ (occ_append_right _ (occ_append_right _
      (occ_append_left _ List.infix_rfl)))
  · rw [str_contains, decide_eq_true_iff]
    unfold unknown_reason_string
    simp only [String.data_append]
    exact occ_append_right _ (occ_append_left _ List.infix_rfl)

/-- C9 witness: code 42 is not in the table and decodes to a string
containing "42" and "2A". -/
theorem c9_witness :
    str_contains (wlan_reason_to_string 42) (format_decimal 42) = true ∧
    str_contains (wlan_reason_to_string 42) (format_hex_upper 42) = true :=
  c9_unknown_reason_renders 42 (by decide)

/-! ## Claim C10: the search filter is subsequence matching -/

theorem consume_search_nil_iff : ∀ (ssid search : List Char),
    consume_search ssid search = [] ↔ List.Sublist search ssid := by
  intro ssid
  induction ssid with
  | nil =>
      intro search
      cases search with
      | nil => simp [consume_search]
      | cons a l => simp [consume_search]
  | cons c cs ih =>
      intro search
      cases search with
      | nil => simp [consume_search, List.nil_sublist]
      | cons sc scs =>
          by_cases hcs : c = sc
          · subst hcs
            rw [show consume_search (c :: cs) (c :: scs) = consume_search cs scs from by
              simp [consume_search]]
            rw [ih scs]
            constructor
            · intro hs
              exact List.Sublist.cons₂ c hs
            · intro hs
              cases hs with
              | cons _ h' => exact (List.sublist_cons_self c scs).trans h'
              | cons₂ _ h' => exact h'
          · rw [show consume_search (c :: cs) (sc :: scs) = consume_search cs (sc :: scs) from by
              simp [consume_search, hcs]]
            rw [ih (sc :: scs)]
            constructor
            · intro hs
              exact List.Sublist.cons c hs
            · intro hs
              cases hs with
              | cons _ h' => exact h'
              | cons₂ _ h' => exact absurd rfl hcs

/-- C10: after `update_filtered_list`, a record is in the filtered list iff
it is in the full list and the lowercased search string is a subsequence
(`List.Sublist`) of its lowercased ssid; with an empty search string the
filtered list equals the full list, preserving order. -/
theorem c10_filtered_list (st : AppStateM) :
    (st.search_value = "" → (update_filtered_list st).filtered_wifi_list = st.wifi_list) ∧
    (∀ w : WifiInfo, w ∈ (update_filtered_list st).filtered_wifi_list ↔
       (w ∈ st.wifi_list ∧
         List.Sublist (str_to_lowercase st.search_value).data
           (str_to_lowercase w.ssid).data)) := by
  constructor
  · intro h
    simp [update_filtered_list, h, show ("" : String).isEmpty = true from rfl]
  · intro w
    by_cases h : st.search_value.isEmpty = true
    · have hval : st.search_value = "" := (String.isEmpty_iff st.search_value).mp h
      simp [update_filtered_list, hval, show ("" : String).isEmpty = true from rfl,
        show (str_to_lowercase "").data = [] from rfl, List.nil_sublist]
    · simp only [update_filtered_list, h, if_false, Bool.false_eq_true]
      simp [List.mem_filter, matches_search, List.isEmpty_iff, consume_search_nil_iff]

/-- C10 witness: the filter evaluated in the sample state (empty search). -/
theorem c10_witness :
    (update_filtered_list sample_connecting_state).filtered_wifi_list
      = sample_connecting_state.wifi_list ∧
    (sample_obs 40 true false ∈ (update_filtered_list sample_connecting_state).filtered_wifi_list
      ↔ (sample_obs 40 true false ∈ sample_connecting_state.wifi_list ∧
          List.Sublist (str_to_lowercase sample_connecting_state.search_value).data
            (str_to_lowercase (sample_obs 40 true false).ssid).data)) :=
  ⟨(c10_filtered_list sample_connecting_state).1 rfl,
   (c10_filtered_list sample_connecting_state).2 (sample_obs 40 true false)⟩

end Wifui
